import Mathlib

/-!
Verification of the browser-resolution and shortcut-lifecycle logic of the
App_Mode_Jupyter_Environment_and_Shortcut repository.

The development shallowly embeds the two Python source files:

* `jupyter_lab_config.py`: `find_flatpak_browser`, `find_browser` and the
  `browser_cmd` resolution at module level.  The ambient machine (operating
  system name as returned by `platform.system()`, environment variables,
  which filesystem paths exist, the Windows registry value for the default
  browser, and the stdout of `flatpak list`) is a `BrowserEnv` record; the
  functions are translated branch by branch.  Python exceptions are modelled
  by `Except PyExn`.

* `setup_jupyter.py`: `ensure_env`, `stage_configs`, `download_icon_file`
  and `main`, together with the `__main__` exception-to-exit-code handler.
  Subprocess calls and file operations are recorded as an `Event` trace;
  conda's view of the world is a `CondaState`.

Python string operations that the sources use (`str.split` on a one-character
separator, `str.replace(old, "")`, `str.strip`, `str.endswith`, substring
tests, and the one regular expression) are re-implemented on `List Char` by
structural recursion so that every definition evaluates inside the kernel.
-/

/-- Python exceptions that the two scripts can raise or catch, used as the
error component of `Except`. -/
inductive PyExn where
  | calledProcessError (returncode : Int)
  | keyboardInterrupt
  | operationCancelled
  | keyError (key : String)
  | unboundLocalError
  | runtimeError (msg : String)
  | jsonDecodeError
  | requestsError
  deriving DecidableEq

/-! ## Python string semantics on character lists -/

/-- Python `str.split(sep)` for a single-character separator: `""` yields
`[""]`, separators at the ends yield empty pieces. -/
def splitOnCharL (sep : Char) : List Char → List (List Char)
  | [] => [[]]
  | c :: cs =>
    let r := splitOnCharL sep cs
    if c == sep then
      [] :: r
    else
      match r with
      | [] => [[c]]
      | h :: t => (c :: h) :: t

/-- String wrapper for `splitOnCharL`. -/
def pySplitChar (sep : Char) (s : String) : List String :=
  (splitOnCharL sep s.data).map (fun cs => String.mk cs)

/-- Python `str.replace(old, "")`: remove every non-overlapping occurrence of
`pat`, scanning left to right.  The fuel argument is the length of the text,
which bounds the number of steps. -/
def removeAllSubL (pat : List Char) : Nat → List Char → List Char
  | _, [] => []
  | 0, cs => cs
  | Nat.succ fuel, c :: cs =>
    if !pat.isEmpty && pat.isPrefixOf (c :: cs) then
      removeAllSubL pat fuel ((c :: cs).drop pat.length)
    else
      c :: removeAllSubL pat fuel cs

/-- String wrapper for `removeAllSubL`; models `s.replace(pat, "")`. -/
def pyRemoveAll (s pat : String) : String :=
  String.mk (removeAllSubL pat.data s.data.length s.data)

/-- Python `str.strip()` (whitespace from both ends). -/
def pyStrip (s : String) : String :=
  String.mk (((s.data.dropWhile Char.isWhitespace).reverse.dropWhile Char.isWhitespace).reverse)

/-- Python `str.endswith(suffix)`. -/
def pyEndsWith (s suffix : String) : Bool :=
  suffix.data.reverse.isPrefixOf s.data.reverse

/-- Occurrence of `pat` as a contiguous substring of `cs` (Python `pat in s`). -/
def listContainsSubL (pat : List Char) : List Char → Bool
  | [] => pat.isEmpty
  | c :: cs => pat.isPrefixOf (c :: cs) || listContainsSubL pat cs

/-- String wrapper for `listContainsSubL`; models Python `pat in s`. -/
def strContains (s pat : String) : Bool :=
  listContainsSubL pat.data s.data

/-- Characters matched by the regex class `\w` (for the ASCII inputs that
occur here): letters, digits and underscore. -/
def isWordChar (c : Char) : Bool :=
  c.isAlphanum || c == '_'

/-- Models `re.search(r"\\Application\\\w+\.exe$", s) is not None` from
`find_browser`: the string ends in `\Application\`, then one or more word
characters, then `.exe`.  Implemented on the reversed character list; the
literal below is `\Application\` reversed. -/
def matchesAppExeRegex (s : String) : Bool :=
  let r := s.data.reverse
  if ("exe.".data).isPrefixOf r then
    let rest := r.drop 4
    let w := rest.takeWhile isWordChar
    !w.isEmpty && ("\\noitacilppA\\".data).isPrefixOf (rest.drop w.length)
  else
    false

/-! ## The ambient machine for `jupyter_lab_config.py` -/

/-- Ambient state read by `find_flatpak_browser` and `find_browser`:
`platform.system()`, the environment variables the code consults, the home
directory, the Windows registry lookup of the default browser command
(`none` models the `FileNotFoundError` branch), which paths exist or are
files on disk, and the outcome of the `flatpak list` subprocess (`.error r`
models a `CalledProcessError` with return code `r`, `.ok s` the decoded
stdout). -/
structure BrowserEnv where
  os : String
  pathVar : Option String
  programFiles : Option String
  programFilesX86 : Option String
  home : String
  registryValue : Option String
  isFile : String → Bool
  pathExists : String → Bool
  flatpakListStdout : Except Int String

/-- Path.__truediv__: joining a directory and a relative path. -/
def joinPath (dir file : String) : String := dir ++ "/" ++ file

/-- The four flatpak application ids probed by `find_flatpak_browser`, in
source order. -/
def flatpakApps : List String :=
  ["com.google.Chrome", "com.microsoft.Edge", "com.brave.Browser", "org.chromium.Chromium"]

/-- The application ids the code extracts from the stdout of
`flatpak list --app --columns=application`: `readlines()[1:]`, each line
stripped.  Splitting on a newline instead of `readlines` only adds a trailing
empty piece when the output ends in a newline; after `strip` that piece is
the empty string, which is never a flatpak application id, and the element
dropped by `[1:]` is the first line in both readings. -/
def parsedFlatpakIds (out : String) : List String :=
  ((pySplitChar '\n' out).drop 1).map pyStrip

/-- Every line of the list-subcommand stdout, stripped: the application ids
as reported, with no line skipped.  This is the claim-side reading used to
state C4; the code itself uses `parsedFlatpakIds`. -/
def allFlatpakIds (out : String) : List String :=
  (pySplitChar '\n' out).map pyStrip

/-- The command template returned for a flatpak browser (the f-string at the
end of `find_flatpak_browser`). -/
def flatpakRunCmd (home app : String) : String :=
  "flatpak run --filesystem=" ++ home ++ "/.local/share/jupyter/runtime " ++ app
    ++ " --start-maximized --profile-directory=Default --app=%s"

/-- Translation of `find_flatpak_browser()`: on a non-Linux system return
`None`; otherwise look for a `flatpak` binary on `PATH` (a missing `PATH`
variable raises `KeyError`), run the list subcommand (a `CalledProcessError`
is swallowed, yielding `None`), and return the run command for the first of
the four known application ids found among the parsed lines. -/
def find_flatpak_browser (env : BrowserEnv) : Except PyExn (Option String) :=
  if env.os != "Linux" then
    .ok none
  else
    match env.pathVar with
    | none => .error (.keyError "PATH")
    | some pathStr =>
      match (pySplitChar ':' pathStr).find? (fun p => env.isFile (joinPath p "flatpak")) with
      | none => .ok none
      | some _ =>
        match env.flatpakListStdout with
        | .error _ => .ok none
        | .ok out =>
          match flatpakApps.find? (fun app => (parsedFlatpakIds out).contains app) with
          | some app => .ok (some (flatpakRunCmd env.home app))
          | none => .ok none

/-! ## `find_browser` -/

/-- The Windows relative executable paths, in source order (three browsers). -/
def windowsCmds : List String :=
  ["Google/Chrome/Application/chrome.exe",
   "BraveSoftware/Brave-Browser/Application/brave.exe",
   "Microsoft/Edge/Application/msedge.exe"]

/-- The Linux executable names, in source order (four browsers). -/
def linuxCmds : List String :=
  ["google-chrome", "microsoft-edge", "brave", "chromium"]

/-- The macOS bundle-relative executable paths, in source order (four
browsers). -/
def darwinCmds : List String :=
  ["Contents/MacOS/Google Chrome",
   "Contents/MacOS/Microsoft Edge",
   "Contents/MacOS/Brave Browser",
   "Contents/MacOS/Chromium"]

/-- Python `Path(s).name`: the last path component. -/
def pathBaseName (s : String) : String :=
  (pySplitChar '/' s).getLastD ""

/-- The macOS install roots: `/Applications/{Path(cmd).name}.app` for each
entry of `darwinCmds`. -/
def darwinPathElements : List String :=
  darwinCmds.map (fun cmd => "/Applications/" ++ pathBaseName cmd ++ ".app")

/-- The suffix appended to every returned browser command. -/
def appModeSuffix : String :=
  " --start-maximized --profile-directory=Default --app=%s"

/-- A browser path or registry command, quoted and given the app-mode flags:
the f-string used by both return sites of `find_browser`. -/
def appCmdFor (p : String) : String :=
  "\"" ++ p ++ "\"" ++ appModeSuffix

/-- itertools.product of the two lists, first coordinate outermost — the
iteration order of the final loop of `find_browser`. -/
def productPairs (cmds pathElements : List String) : List (String × String) :=
  cmds.flatMap (fun c => pathElements.map (fun p => (c, p)))

/-- The candidate absolute paths `path_element / cmd`, in the order the loop
of `find_browser` probes them. -/
def scanCandidates (cmds pathElements : List String) : List String :=
  (productPairs cmds pathElements).map (fun cp => joinPath cp.2 cp.1)

/-- The final loop of `find_browser`: the first candidate that exists,
formatted as a command. -/
def scanBrowsers (env : BrowserEnv) (cmds pathElements : List String) : Option String :=
  ((scanCandidates cmds pathElements).find? (fun b => env.pathExists b)).map appCmdFor

/-- The preprocessing of the registry value in `find_browser`:
`.replace('"%1"', "").replace('"', "").strip()`. -/
def processRegistryCmd (raw : String) : String :=
  pyStrip (pyRemoveAll (pyRemoveAll raw "\"%1\"") "\"")

/-- Python `str.replace(old, new)` for single characters. -/
def pyReplaceChar (old new : Char) (s : String) : String :=
  String.mk (s.data.map (fun c => if c == old then new else c))

/-- The condition under which `find_browser` accepts the registry default
browser command: it ends with one of the three known relative paths with `/`
replaced by `os.pathsep` (which is `;` on Windows, where this branch runs),
or it matches the `\Application\⟨word⟩.exe` regex. -/
def registryChromiumLike (dbc : String) : Bool :=
  windowsCmds.any (fun cmd => pyEndsWith dbc (pyReplaceChar '/' ';' cmd)) || matchesAppExeRegex dbc

/-- Translation of `find_browser()`. On Windows the two `ProgramFiles`
variables are read first (their absence raises `KeyError`), then the registry
default-browser command is tried, then the product scan over the two install
roots; on Linux the scan runs over the `PATH` elements; on macOS over the
fixed `/Applications` bundles.  On any other system the final loop reads the
never-assigned local `cmds`, raising `UnboundLocalError`. -/
def find_browser (env : BrowserEnv) : Except PyExn (Option String) :=
  if env.os == "Windows" then
    match env.programFiles, env.programFilesX86 with
    | none, _ => .error (.keyError "ProgramFiles")
    | some _, none => .error (.keyError "ProgramFiles(x86)")
    | some pf, some pf86 =>
      let registryHit : Option String :=
        match env.registryValue with
        | none => none
        | some raw =>
          let dbc := processRegistryCmd raw
          if registryChromiumLike dbc then some (appCmdFor dbc) else none
      match registryHit with
      | some c => .ok (some c)
      | none => .ok (scanBrowsers env windowsCmds [pf, pf86])
  else if env.os == "Linux" then
    match env.pathVar with
    | none => .error (.keyError "PATH")
    | some p => .ok (scanBrowsers env linuxCmds (pySplitChar ':' p))
  else if env.os == "Darwin" then
    .ok (scanBrowsers env darwinCmds darwinPathElements)
  else
    .error .unboundLocalError

/-- Module-level resolution in `jupyter_lab_config.py`:
`browser_cmd = find_flatpak_browser() or find_browser()`.  A command string
is never empty, so Python truthiness coincides with `Option.isSome`; an
exception from either call propagates. -/
def browser_cmd (env : BrowserEnv) : Except PyExn (Option String) :=
  match find_flatpak_browser env with
  | .error e => .error e
  | .ok (some c) => .ok (some c)
  | .ok none => find_browser env

/-! ## The model of `setup_jupyter.py` -/

/-- Observable actions of `setup_jupyter.py`: subprocess invocations, file
operations, the interactive prompt, and log lines that mark a branch.  The
`menuinstRemoveCall` event records whether the `menuinst.api.remove` call
raised; both call sites swallow the exception (`except: pass`). -/
inductive Event where
  | warnNotBase
  | rerunCondaRun (argv : List String)
  | promptMenuinst
  | condaInstallMenuinst
  | rerunPython (argv : List String)
  | condaListEnv (name : String)
  | condaCreateEnv (name : String) (pkgs : List String)
  | condaInstallPkgs (name : String) (pkgs : List String)
  | writeCondarc (path : String)
  | mkdirMenu (path : String)
  | downloadIcon (url : String) (dest : String)
  | convertSvgToIcns (svg : String) (icns : String)
  | copyFile (src : String) (destDir : String)
  | menuinstRemoveCall (spec : String) (raised : Bool)
  | menuinstInstallCall (spec : String)
  | unlink (path : String)
  | logErrorNoSpec (spec : String)
  deriving DecidableEq

/-- conda's state as the script observes it: the base environment path
(`get_base_prefix()`), the named environments with their installed package
names (what `conda list --json` reports), and the directories that exist.
The model covers runs in which the conda subprocesses succeed and their JSON
output parses (it is produced by conda itself). -/
structure CondaState where
  basePrefix : String
  envs : List (String × List String)
  dirs : List String
  deriving DecidableEq

/-- The result of `ensure_env`: the new conda state, the subprocess/file
events performed, and the returned environment path. -/
structure EnsureRes where
  state : CondaState
  events : List Event
  path : String
  deriving DecidableEq

/-- The three packages `ensure_env` requires in an existing environment,
listed in the order Python's `sorted` puts the set difference. -/
def requiredJupyterPkgs : List String :=
  ["ipykernel", "jupyterlab", "nb_conda_kernels"]

/-- The package list of the `conda create` call for a fresh environment, in
source order. -/
def newEnvPkgs : List String :=
  ["jupyterlab", "nb_conda_kernels", "nbconvert", "jupyterlab-nbconvert-nocode",
   "jupyterlab-git", "jupyterlab-lsp", "jupyterlab_code_formatter", "jupyterlab-day",
   "jupyterlab-night", "jupyterlab_pygments", "black", "isort", "python-lsp-server",
   "ipykernel", "ipywidgets", "panel", "pandas", "numpy", "scipy", "statsmodels",
   "openpyxl", "tabulate", "matplotlib", "toolz", "more-itertools", "ipyparallel",
   "requests", "tqdm", "rich", "rich-with-jupyter", "sqlalchemy"]

/-- Replace the package list of environment `name` (the effect of
`conda install --name name`). -/
def updateEnvPkgs (name : String) (pkgs : List String) :
    List (String × List String) → List (String × List String) :=
  List.map (fun p => if p.1 == name then (p.1, pkgs) else p)

/-- `Path.mkdir(exist_ok=True)`: add the directory unless it exists. -/
def mkdirExistOk (d : String) (dirs : List String) : List String :=
  if dirs.contains d then dirs else dirs ++ [d]

/-- Translation of `ensure_env(env_name)`.  `conda list --json --name`
reports an error object when the environment does not exist; then the
environment is created with `newEnvPkgs` and a `.condarc` is written.
Otherwise the packages of `requiredJupyterPkgs` missing from the reported
set are installed.  Both branches make the `Menu` directory and return the
environment path `base_prefix/envs/name`. -/
def ensure_env (name : String) (s : CondaState) : EnsureRes :=
  let envPrefix := s.basePrefix ++ "/envs/" ++ name
  let menuDir := envPrefix ++ "/Menu"
  match s.envs.lookup name with
  | none =>
    { state := { s with
                 envs := (name, newEnvPkgs) :: s.envs
                 dirs := mkdirExistOk menuDir (s.dirs ++ [envPrefix]) },
      events := [.condaListEnv name, .condaCreateEnv name newEnvPkgs,
                 .writeCondarc (envPrefix ++ "/.condarc"), .mkdirMenu menuDir],
      path := envPrefix }
  | some pkgs =>
    let missing := requiredJupyterPkgs.filter (fun p => !pkgs.contains p)
    if missing.isEmpty then
      { state := { s with dirs := mkdirExistOk menuDir s.dirs },
        events := [.condaListEnv name, .mkdirMenu menuDir],
        path := envPrefix }
    else
      { state := { s with
                   envs := updateEnvPkgs name (pkgs ++ missing) s.envs
                   dirs := mkdirExistOk menuDir s.dirs },
        events := [.condaListEnv name, .condaInstallPkgs name missing, .mkdirMenu menuDir],
        path := envPrefix }

/-- The three icon asset URLs of `download_icon_file`, in source order. -/
def iconUrlWindows : String :=
  "https://raw.githubusercontent.com/jupyterlab/jupyterlab-desktop/master/dist-resources/icons/icon.ico"

/-- Linux icon asset URL. -/
def iconUrlLinux : String :=
  "https://raw.githubusercontent.com/jupyterlab/jupyterlab-desktop/master/dist-resources/icons/512x512.png"

/-- macOS icon asset URL. -/
def iconUrlDarwin : String :=
  "https://raw.githubusercontent.com/jupyterlab/jupyterlab-desktop/8614277f274b0e9ee9cc550d194e4f02d0c5c3c7/dist-resources/icon.svg"

/-- Translation of `download_icon_file(menu_dir)` for a successful download:
the events performed and the icon file that exists in `menu_dir` afterwards.
The downloaded file is `jupyterlab` plus the URL suffix; on macOS the `.svg`
is then converted by `svg_to_icns`, which writes `jupyterlab.icns` and
unlinks the `.svg`.  An unsupported system raises `RuntimeError`. -/
def download_icon_file (os menuDir : String) : Except PyExn (List Event × String) :=
  if os == "Windows" then
    .ok ([.downloadIcon iconUrlWindows (menuDir ++ "/jupyterlab.ico")],
         menuDir ++ "/jupyterlab.ico")
  else if os == "Linux" then
    .ok ([.downloadIcon iconUrlLinux (menuDir ++ "/jupyterlab.png")],
         menuDir ++ "/jupyterlab.png")
  else if os == "Darwin" then
    .ok ([.downloadIcon iconUrlDarwin (menuDir ++ "/jupyterlab.svg"),
          .convertSvgToIcns (menuDir ++ "/jupyterlab.svg") (menuDir ++ "/jupyterlab.icns"),
          .unlink (menuDir ++ "/jupyterlab.svg")],
         menuDir ++ "/jupyterlab.icns")
  else
    .error (.runtimeError (os ++ " is not a supported platform"))

/-- Ambient state of a `setup_jupyter.py` run read by `main`:
`platform.system()`, the two prerequisite checks, the interactive answer,
`sys.argv`, the return codes of the re-invocation subprocesses (`none`
models success of a `check=True` call), the repository directory and whether
the destination `Menu` directory `samefile`s it, whether `menuinst.remove`
raises, and the two filesystem tests of the removal branch. -/
structure SetupEnv where
  os : String
  inBase : Bool
  menuinstGe2 : Bool
  userAccepts : Bool
  argv : List String
  rerunCondaReturncode : Int
  condaInstallMenuinstResult : Option Int
  rerunPythonResult : Option Int
  repoDir : String
  menuIsRepoDir : Bool
  menuinstRemoveRaises : Bool
  shortcutSpecIsFile : Bool
  menuDirExists : Bool

/-- The result of `stage_configs`: events and the shortcut spec path it
returns. -/
structure StageRes where
  events : List Event
  shortcutJson : String
  deriving DecidableEq

/-- Translation of `stage_configs(destination_dir)`: download the icon, then
copy the config and the shortcut spec into the destination unless it is the
repository directory itself, and return the spec path to use. -/
def stage_configs (env : SetupEnv) (destinationDir : String) : Except PyExn StageRes :=
  match download_icon_file env.os destinationDir with
  | .error e => .error e
  | .ok dl =>
    if env.menuIsRepoDir then
      .ok { events := dl.1, shortcutJson := env.repoDir ++ "/jupyterlab_shortcut.json" }
    else
      .ok { events := dl.1 ++
              [.copyFile (env.repoDir ++ "/jupyter_lab_config.py") destinationDir,
               .copyFile (env.repoDir ++ "/jupyterlab_shortcut.json") destinationDir],
            shortcutJson := destinationDir ++ "/jupyterlab_shortcut.json" }

/-- The icon file name the removal branch of `main` unlinks, per system (the
`match platform.system()` block in the `remove_shortcut` branch; note that
the Darwin case names `jupyterlab.ico`). -/
def removeIconFileName (os : String) : Except PyExn String :=
  if os == "Windows" then .ok "jupyterlab.ico"
  else if os == "Linux" then .ok "jupyterlab.png"
  else if os == "Darwin" then .ok "jupyterlab.ico"
  else .error (.runtimeError (os ++ " is not a supported platform"))

/-- The result of `main`: the Python return value or exception, the event
trace, and the final conda state. -/
structure MainRes where
  result : Except PyExn (Option Int)
  events : List Event
  state : CondaState

/-- Translation of `main(target_env_name, remove_shortcut)` (named
`setupMain` because `main` is reserved by Lean).
First branch: not in the base environment — warn and re-run the script via
`conda run` with the same `argv` (`check=False`), returning that return
code.  Second branch: `menuinst>=2` missing — prompt; on consent install it
(`check=True`) and re-run `python argv` (`check=True`), else do nothing.
Third branch: prerequisites met and removing — resolve the Menu paths (an
unsupported system raises before anything happens), call `menuinst.remove`
if the spec file exists (exceptions swallowed) or log an error, then unlink
config, icon and spec if the Menu directory exists.  Fourth branch:
prerequisites met, installing — `ensure_env`, `stage_configs`, remove the
old shortcut (exception swallowed by the bare `except`), and install the new
one in the `finally` block. -/
def setupMain (env : SetupEnv) (s : CondaState) (targetEnvName : String)
    (removeShortcut : Bool) : MainRes :=
  if env.inBase = false then
    { result := .ok (some env.rerunCondaReturncode),
      events := [.warnNotBase, .rerunCondaRun env.argv],
      state := s }
  else if env.menuinstGe2 = false then
    if env.userAccepts then
      match env.condaInstallMenuinstResult with
      | some r =>
        { result := .error (.calledProcessError r),
          events := [.promptMenuinst, .condaInstallMenuinst],
          state := s }
      | none =>
        match env.rerunPythonResult with
        | some r =>
          { result := .error (.calledProcessError r),
            events := [.promptMenuinst, .condaInstallMenuinst, .rerunPython env.argv],
            state := s }
        | none =>
          { result := .ok none,
            events := [.promptMenuinst, .condaInstallMenuinst, .rerunPython env.argv],
            state := s }
    else
      { result := .ok none, events := [.promptMenuinst], state := s }
  else if removeShortcut then
    let targetPrefix := s.basePrefix ++ "/envs/" ++ targetEnvName
    let menuDir := targetPrefix ++ "/Menu"
    let shortcutJson := menuDir ++ "/jupyterlab_shortcut.json"
    let jupyterlabConfig := menuDir ++ "/jupyter_lab_config.py"
    match removeIconFileName env.os with
    | .error e => { result := .error e, events := [], state := s }
    | .ok iconName =>
      let iconFile := menuDir ++ "/" ++ iconName
      let removeEvents :=
        if env.shortcutSpecIsFile then
          [Event.menuinstRemoveCall shortcutJson env.menuinstRemoveRaises]
        else
          [Event.logErrorNoSpec shortcutJson]
      let cleanupEvents :=
        if env.menuDirExists then
          [Event.unlink jupyterlabConfig, Event.unlink iconFile, Event.unlink shortcutJson]
        else
          []
      { result := .ok none, events := removeEvents ++ cleanupEvents, state := s }
  else
    let r := ensure_env targetEnvName s
    match stage_configs env (r.path ++ "/Menu") with
    | .error e => { result := .error e, events := r.events, state := r.state }
    | .ok st =>
      { result := .ok none,
        events := r.events ++ st.events ++
          [Event.menuinstRemoveCall st.shortcutJson env.menuinstRemoveRaises,
           Event.menuinstInstallCall st.shortcutJson],
        state := r.state }

/-- The `__main__` handler of `setup_jupyter.py`: `exit(main(...))` maps a
`None` return to exit code 0 and an int to itself; a `CalledProcessError`
exits with that subprocess's return code; `OperationCancelled` and
`KeyboardInterrupt` exit 1; any other exception exits 1. -/
def toplevelExitCode (outcome : Except PyExn (Option Int)) : Int :=
  match outcome with
  | .ok none => 0
  | .ok (some r) => r
  | .error (.calledProcessError r) => r
  | .error .keyboardInterrupt => 1
  | .error .operationCancelled => 1
  | .error _ => 1

/-- The exceptions of the final `except Exception` clause: everything the
two earlier clauses do not catch. -/
def isUnexpectedExn : PyExn → Bool
  | .calledProcessError _ => false
  | .keyboardInterrupt => false
  | .operationCancelled => false
  | _ => true

/-! ## Helper lemmas -/

/-- Events that install packages: the `conda create`, `conda install` and
`conda install menuinst` subprocess calls. -/
def isPkgChangeEvent : Event → Bool
  | .condaCreateEnv _ _ => true
  | .condaInstallPkgs _ _ => true
  | .condaInstallMenuinst => true
  | _ => false

theorem lookup_updateEnvPkgs (name : String) (q : List String)
    (envs : List (String × List String)) (pkgs : List String)
    (h : envs.lookup name = some pkgs) :
    (updateEnvPkgs name q envs).lookup name = some q := by
  induction envs with
  | nil => simp [List.lookup] at h
  | cons hd tl ih =>
    obtain ⟨a, b⟩ := hd
    have hcons : updateEnvPkgs name q ((a, b) :: tl)
        = (if a == name then (a, q) else (a, b)) :: updateEnvPkgs name q tl := rfl
    by_cases hab : a = name
    · subst hab
      rw [hcons, if_pos (show (a == a) = true by simp)]
      simp [List.lookup]
    · have h1 : (a == name) = false := by simp [hab]
      have h2 : (name == a) = false := by simp [Ne.symm hab]
      rw [hcons, if_neg (by simp [h1])]
      simp only [List.lookup_cons, h2] at h ⊢
      exact ih h

theorem mem_mkdirExistOk (d : String) (dirs : List String) : d ∈ mkdirExistOk d dirs := by
  unfold mkdirExistOk
  by_cases h : d ∈ dirs
  · have hc : dirs.contains d = true := by simpa using h
    rw [if_pos hc]
    exact h
  · have hc : ¬(dirs.contains d = true) := by simpa using h
    rw [if_neg hc]
    simp

theorem contains_mkdirExistOk (d : String) (dirs : List String) :
    (mkdirExistOk d dirs).contains d = true := by
  simpa using mem_mkdirExistOk d dirs

/-- An environment that already holds the required packages and whose Menu
directory exists is a fixed point of `ensure_env`: the run only performs the
`conda list` query and the no-op `mkdir`. -/
theorem ensure_env_stable (name : String) (s : CondaState) (pkgs : List String)
    (hl : s.envs.lookup name = some pkgs)
    (hreq : requiredJupyterPkgs.filter (fun p => !pkgs.contains p) = [])
    (hdir : s.dirs.contains (s.basePrefix ++ "/envs/" ++ name ++ "/Menu") = true) :
    ensure_env name s =
      { state := s,
        events := [.condaListEnv name, .mkdirMenu (s.basePrefix ++ "/envs/" ++ name ++ "/Menu")],
        path := s.basePrefix ++ "/envs/" ++ name } := by
  simp only [ensure_env, hl, hreq, List.isEmpty_nil, eq_self_iff_true, if_true,
    mkdirExistOk, hdir]

/-- Any run of `ensure_env` leaves the target environment present with the
required packages, the Menu directory existing, and the base environment
path unchanged. -/
theorem ensure_env_establishes (name : String) (s : CondaState) :
    ∃ pkgs, (ensure_env name s).state.envs.lookup name = some pkgs ∧
      requiredJupyterPkgs.filter (fun p => !pkgs.contains p) = [] ∧
      (ensure_env name s).state.basePrefix = s.basePrefix ∧
      (ensure_env name s).state.dirs.contains
        (s.basePrefix ++ "/envs/" ++ name ++ "/Menu") = true := by
  cases hl : s.envs.lookup name with
  | none =>
    refine ⟨newEnvPkgs, ?_, by decide, ?_, ?_⟩
    · simp only [ensure_env, hl]
      simp [List.lookup]
    · simp only [ensure_env, hl]
    · simp only [ensure_env, hl]
      exact contains_mkdirExistOk _ _
  | some pkgs =>
    by_cases hm : requiredJupyterPkgs.filter (fun p => !pkgs.contains p) = []
    · refine ⟨pkgs, ?_, hm, ?_, ?_⟩
      · simp only [ensure_env, hm, List.isEmpty_nil, eq_self_iff_true, if_true, hl]
      · simp only [ensure_env, hl, hm, List.isEmpty_nil, eq_self_iff_true, if_true]
      · simp only [ensure_env, hl, hm, List.isEmpty_nil, eq_self_iff_true, if_true]
        exact contains_mkdirExistOk _ _
    · have hne : (requiredJupyterPkgs.filter (fun p => !pkgs.contains p)).isEmpty = false := by
        cases hfe : (requiredJupyterPkgs.filter (fun p => !pkgs.contains p)).isEmpty with
        | false => rfl
        | true => exact absurd (List.isEmpty_iff.mp hfe) hm
      refine ⟨pkgs ++ requiredJupyterPkgs.filter (fun p => !pkgs.contains p), ?_, ?_, ?_, ?_⟩
      · simp only [ensure_env, hl, hne, Bool.false_eq_true, if_false]
        exact lookup_updateEnvPkgs name _ s.envs pkgs hl
      · rw [List.filter_eq_nil_iff]
        intro p hp
        have hmem : p ∈ pkgs ++ requiredJupyterPkgs.filter (fun q => !pkgs.contains q) := by
          by_cases hc : pkgs.contains p = true
          · exact List.mem_append.mpr (Or.inl (by simpa using hc))
          · refine List.mem_append.mpr (Or.inr (List.mem_filter.mpr ⟨hp, ?_⟩))
            have hf : pkgs.contains p = false := by
              cases hb : pkgs.contains p with
              | false => rfl
              | true => exact absurd hb hc
            simpa using hf
        have hcon : (pkgs ++ requiredJupyterPkgs.filter
            (fun q => !pkgs.contains q)).contains p = true := by
          simpa using hmem
        intro hfalse
        have hfalse2 : (!(pkgs ++ requiredJupyterPkgs.filter
            (fun q => !pkgs.contains q)).contains p) = true := hfalse
        rw [hcon] at hfalse2
        exact absurd hfalse2 (by decide)
      · simp only [ensure_env, hl, hne, Bool.false_eq_true, if_false]
      · simp only [ensure_env, hl, hne, Bool.false_eq_true, if_false]
        exact contains_mkdirExistOk _ _

/-- C3: ensure_env is idempotent.  For every environment name and conda
state, running `ensure_env` a second time on the state produced by a first
run performs no package-installing subprocess call (no `conda create`, no
`conda install`) and leaves the conda state — in particular the installed
package set of the environment — unchanged. -/
theorem ensure_env_idempotent (name : String) (s : CondaState) :
    (ensure_env name (ensure_env name s).state).state = (ensure_env name s).state ∧
    (ensure_env name (ensure_env name s).state).events.all
      (fun e => !isPkgChangeEvent e) = true := by
  obtain ⟨pkgs, hl, hreq, hbase, hdir⟩ := ensure_env_establishes name s
  have hdir2 : (ensure_env name s).state.dirs.contains
      ((ensure_env name s).state.basePrefix ++ "/envs/" ++ name ++ "/Menu") = true := by
    rw [hbase]; exact hdir
  rw [ensure_env_stable name (ensure_env name s).state pkgs hl hreq hdir2]
  constructor
  · rfl
  · simp [isPkgChangeEvent]

/-- C10: for every environment name and conda state, `ensure_env` returns
the path `base_prefix/envs/name`, and at return the directory
`base_prefix/envs/name/Menu` exists (both in the environment-absent and the
environment-present branch). -/
theorem ensure_env_path_and_menu (name : String) (s : CondaState) :
    (ensure_env name s).path = s.basePrefix ++ "/envs/" ++ name ∧
    (s.basePrefix ++ "/envs/" ++ name ++ "/Menu") ∈ (ensure_env name s).state.dirs := by
  constructor
  · cases hl : s.envs.lookup name with
    | none => simp only [ensure_env, hl]
    | some pkgs =>
      simp only [ensure_env, hl]
      split <;> rfl
  · obtain ⟨pkgs, hl, hreq, hbase, hdir⟩ := ensure_env_establishes name s
    simpa using hdir

/-! ## Claims about `main` in `setup_jupyter.py` -/

/-- The paths passed to `Path.unlink` in an event trace, in order. -/
def unlinkTargets : List Event → List String
  | [] => []
  | .unlink p :: t => p :: unlinkTargets t
  | _ :: t => unlinkTargets t

/-- What `main` actually does when a prerequisite is unmet: without the base
environment it warns and re-runs itself through `conda run` (no prompt);
with the base environment but no `menuinst>=2` it prompts and, only on
consent, installs menuinst and re-runs itself. -/
def prereqRerunEvents (env : SetupEnv) : List Event :=
  if env.inBase = false then
    [.warnNotBase, .rerunCondaRun env.argv]
  else if env.userAccepts then
    [.promptMenuinst, .condaInstallMenuinst, .rerunPython env.argv]
  else
    [.promptMenuinst]

/-- A conda state with no environments, used for concrete runs. -/
def condaStateEx : CondaState :=
  { basePrefix := "/conda", envs := [], dirs := [] }

/-- A run outside the base environment. -/
def envNotBase : SetupEnv :=
  { os := "Linux", inBase := false, menuinstGe2 := true, userAccepts := false,
    argv := ["setup_jupyter.py", "jl"], rerunCondaReturncode := 3,
    condaInstallMenuinstResult := none, rerunPythonResult := none,
    repoDir := "/repo", menuIsRepoDir := false, menuinstRemoveRaises := false,
    shortcutSpecIsFile := false, menuDirExists := false }

/-- Counterexample to C9 as stated: in a run whose prerequisites are unmet
because it is outside the base environment, `main` re-invokes itself via
`conda run` but never prompts the user, while the claim says it prompts
interactively. -/
theorem setupMain_not_base_no_prompt_cx :
    (setupMain envNotBase condaStateEx "jl" false).events
      = [.warnNotBase, .rerunCondaRun ["setup_jupyter.py", "jl"]] ∧
    Event.promptMenuinst ∉ (setupMain envNotBase condaStateEx "jl" false).events := by
  exact ⟨rfl, by decide⟩

/-- C9 (amended): when the prerequisites are unmet and the recovery
subprocesses succeed, `main` behaves as `prereqRerunEvents` describes —
outside the base environment it warns and re-invokes itself via `conda run`
with the same arguments without prompting, surfacing that subprocess's
return code; inside the base environment with `menuinst>=2` missing it
prompts and re-invokes itself with the same arguments only if the user
consents, doing nothing further on refusal. -/
theorem setupMain_prereq_rerun (env : SetupEnv) (s : CondaState) (name : String)
    (removeShortcut : Bool)
    (hunmet : env.inBase = false ∨ env.menuinstGe2 = false)
    (hsub1 : env.condaInstallMenuinstResult = none)
    (hsub2 : env.rerunPythonResult = none) :
    (setupMain env s name removeShortcut).events = prereqRerunEvents env ∧
    (env.inBase = false →
      (setupMain env s name removeShortcut).result = .ok (some env.rerunCondaReturncode)) := by
  by_cases hb : env.inBase = false
  · constructor
    · simp [setupMain, prereqRerunEvents, hb]
    · intro _
      simp [setupMain, hb]
  · have hbt : env.inBase = true := by
      cases h : env.inBase with
      | true => rfl
      | false => exact absurd h hb
    have hm : env.menuinstGe2 = false := by
      rcases hunmet with h | h
      · exact absurd h hb
      · exact h
    cases hua : env.userAccepts with
    | true =>
      refine ⟨?_, fun h => absurd h hb⟩
      simp [setupMain, prereqRerunEvents, hbt, hm, hua, hsub1, hsub2]
    | false =>
      refine ⟨?_, fun h => absurd h hb⟩
      simp [setupMain, prereqRerunEvents, hbt, hm, hua]

/-- Witness for C9 (amended) at a concrete run outside the base
environment. -/
theorem setupMain_prereq_rerun_witness :
    (setupMain envNotBase condaStateEx "jl" false).events = prereqRerunEvents envNotBase ∧
    (setupMain envNotBase condaStateEx "jl" false).result = .ok (some 3) :=
  ⟨(setupMain_prereq_rerun envNotBase condaStateEx "jl" false (Or.inl rfl) rfl rfl).1,
   (setupMain_prereq_rerun envNotBase condaStateEx "jl" false (Or.inl rfl) rfl rfl).2 rfl⟩

/-- C6: running the removal operation when the shortcut spec file does not
exist (the shortcut was never created) completes without raising: `main`
returns `None`. -/
theorem remove_missing_shortcut_no_raise (env : SetupEnv) (s : CondaState) (name : String)
    (hbase : env.inBase = true) (hge2 : env.menuinstGe2 = true)
    (hos : env.os = "Windows" ∨ env.os = "Linux" ∨ env.os = "Darwin")
    (hspec : env.shortcutSpecIsFile = false) :
    (setupMain env s name true).result = .ok none := by
  rcases hos with h | h | h <;>
    simp [setupMain, removeIconFileName, hbase, hge2, h, hspec]

/-- A removal run on Linux in an environment whose Menu directory and
shortcut spec were never created. -/
def envRemoveNoSpec : SetupEnv :=
  { os := "Linux", inBase := true, menuinstGe2 := true, userAccepts := false,
    argv := ["setup_jupyter.py", "jl", "--remove"], rerunCondaReturncode := 0,
    condaInstallMenuinstResult := none, rerunPythonResult := none,
    repoDir := "/repo", menuIsRepoDir := false, menuinstRemoveRaises := false,
    shortcutSpecIsFile := false, menuDirExists := false }

/-- Witness for C6 at a concrete removal run. -/
theorem remove_missing_shortcut_no_raise_witness :
    (setupMain envRemoveNoSpec condaStateEx "jl" true).result = .ok none :=
  remove_missing_shortcut_no_raise envRemoveNoSpec condaStateEx "jl" rfl rfl
    (Or.inr (Or.inl rfl)) rfl

/-- A removal run on macOS for an environment in which the shortcut had been
installed (spec file and Menu directory present). -/
def envDarwinRemove : SetupEnv :=
  { os := "Darwin", inBase := true, menuinstGe2 := true, userAccepts := false,
    argv := ["setup_jupyter.py", "jl", "--remove"], rerunCondaReturncode := 0,
    condaInstallMenuinstResult := none, rerunPythonResult := none,
    repoDir := "/repo", menuIsRepoDir := false, menuinstRemoveRaises := false,
    shortcutSpecIsFile := true, menuDirExists := true }

/-- The conda state after an install of the `jl` environment. -/
def condaStateDarwin : CondaState :=
  { basePrefix := "/conda", envs := [("jl", newEnvPkgs)],
    dirs := ["/conda/envs/jl", "/conda/envs/jl/Menu"] }

/-- C2, evaluated at the failing input: on macOS the install path creates
the icon file `Menu/jupyterlab.icns` (the downloaded `.svg` is converted to
`.icns` and deleted), but the removal branch unlinks `Menu/jupyterlab.ico`,
so the icon file the install created is not among the deleted files — the
removal still swallows the `menuinst.remove` outcome and returns `None`. -/
theorem darwin_icon_remove_mismatch :
    (download_icon_file "Darwin" "/conda/envs/jl/Menu").map Prod.snd
      = .ok "/conda/envs/jl/Menu/jupyterlab.icns" ∧
    unlinkTargets (setupMain envDarwinRemove condaStateDarwin "jl" true).events
      = ["/conda/envs/jl/Menu/jupyter_lab_config.py",
         "/conda/envs/jl/Menu/jupyterlab.ico",
         "/conda/envs/jl/Menu/jupyterlab_shortcut.json"] ∧
    "/conda/envs/jl/Menu/jupyterlab.icns" ∉
      unlinkTargets (setupMain envDarwinRemove condaStateDarwin "jl" true).events ∧
    (setupMain envDarwinRemove condaStateDarwin "jl" true).result = .ok none := by
  refine ⟨rfl, rfl, by decide, rfl⟩

/-- On a supported system `stage_configs` succeeds and its events include
the icon download. -/
theorem stage_configs_ok (env : SetupEnv) (d : String)
    (hos : env.os = "Windows" ∨ env.os = "Linux" ∨ env.os = "Darwin") :
    ∃ st : StageRes, stage_configs env d = .ok st ∧
      ∃ url dest, Event.downloadIcon url dest ∈ st.events := by
  rcases hos with h | h | h <;> cases hrepo : env.menuIsRepoDir <;>
    simp [stage_configs, download_icon_file, h, hrepo]

/-- C8: in the install path the steps are ordered stage (which downloads
the icon and copies the config files), then the `menuinst.remove` attempt
on the old shortcut, then `menuinst.install`; the install step runs whatever
the outcome of the remove attempt (its `raised` flag is arbitrary), and
`main` returns `None`. -/
theorem install_order_stage_remove_install (env : SetupEnv) (s : CondaState) (name : String)
    (hbase : env.inBase = true) (hge2 : env.menuinstGe2 = true)
    (hos : env.os = "Windows" ∨ env.os = "Linux" ∨ env.os = "Darwin") :
    ∃ stagePart spec,
      (setupMain env s name false).events
        = stagePart ++ [Event.menuinstRemoveCall spec env.menuinstRemoveRaises,
                        Event.menuinstInstallCall spec] ∧
      (∃ url dest, Event.downloadIcon url dest ∈ stagePart) ∧
      (setupMain env s name false).result = .ok none := by
  obtain ⟨st, hst, url, dest, hmem⟩ :=
    stage_configs_ok env ((ensure_env name s).path ++ "/Menu") hos
  refine ⟨(ensure_env name s).events ++ st.events, st.shortcutJson, ?_, ?_, ?_⟩
  · simp [setupMain, hbase, hge2, hst]
  · exact ⟨url, dest, List.mem_append.mpr (Or.inr hmem)⟩
  · simp [setupMain, hbase, hge2, hst]

/-- An install run on Linux in which the removal of the prior shortcut
raises (and is swallowed). -/
def envInstallRemoveFails : SetupEnv :=
  { os := "Linux", inBase := true, menuinstGe2 := true, userAccepts := false,
    argv := ["setup_jupyter.py", "jl"], rerunCondaReturncode := 0,
    condaInstallMenuinstResult := none, rerunPythonResult := none,
    repoDir := "/repo", menuIsRepoDir := false, menuinstRemoveRaises := true,
    shortcutSpecIsFile := false, menuDirExists := false }

/-- Witness for C8 at a concrete install run whose prior-shortcut removal
fails: the new shortcut is still installed, after the removal attempt. -/
theorem install_order_stage_remove_install_witness :
    ∃ stagePart spec,
      (setupMain envInstallRemoveFails condaStateEx "jl" false).events
        = stagePart ++ [Event.menuinstRemoveCall spec true,
                        Event.menuinstInstallCall spec] ∧
      (∃ url dest, Event.downloadIcon url dest ∈ stagePart) ∧
      (setupMain envInstallRemoveFails condaStateEx "jl" false).result = .ok none :=
  install_order_stage_remove_install envInstallRemoveFails condaStateEx "jl" rfl rfl
    (Or.inr (Or.inl rfl))

/-- A run inside the base environment where `menuinst>=2` is missing, the
user consents, and the `conda install menuinst` subprocess fails with
return code 7. -/
def envMenuinstInstallFails : SetupEnv :=
  { os := "Linux", inBase := true, menuinstGe2 := false, userAccepts := true,
    argv := ["setup_jupyter.py", "jl"], rerunCondaReturncode := 0,
    condaInstallMenuinstResult := some 7, rerunPythonResult := none,
    repoDir := "/repo", menuIsRepoDir := false, menuinstRemoveRaises := false,
    shortcutSpecIsFile := false, menuDirExists := false }

/-- C7: the process exit code of the `__main__` handler equals the failing
subprocess's return code when a `CalledProcessError` reaches the top level,
equals 1 on user cancellation (`OperationCancelled` or `KeyboardInterrupt`),
and equals 1 on any other unexpected exception; in particular a run whose
`conda install menuinst` call fails with code `r` exits with `r`. -/
theorem toplevel_exit_codes (r : Int) (e : PyExn) (env : SetupEnv) (s : CondaState)
    (name : String)
    (he : isUnexpectedExn e = true)
    (hbase : env.inBase = true) (hge2 : env.menuinstGe2 = false)
    (hacc : env.userAccepts = true) (hfail : env.condaInstallMenuinstResult = some r) :
    toplevelExitCode (.error (.calledProcessError r)) = r ∧
    toplevelExitCode (.error .keyboardInterrupt) = 1 ∧
    toplevelExitCode (.error .operationCancelled) = 1 ∧
    toplevelExitCode (.error e) = 1 ∧
    toplevelExitCode (setupMain env s name false).result = r := by
  refine ⟨rfl, rfl, rfl, ?_, ?_⟩
  · cases e <;> first
      | rfl
      | simp [isUnexpectedExn] at he
  · simp [setupMain, toplevelExitCode, hbase, hge2, hacc, hfail]

/-- Witness for C7 at a concrete failing run and a concrete unexpected
exception. -/
theorem toplevel_exit_codes_witness :
    toplevelExitCode (.error (.calledProcessError 7)) = 7 ∧
    toplevelExitCode (.error .keyboardInterrupt) = 1 ∧
    toplevelExitCode (.error .operationCancelled) = 1 ∧
    toplevelExitCode (.error (.runtimeError "boom")) = 1 ∧
    toplevelExitCode (setupMain envMenuinstInstallFails condaStateEx "jl" false).result = 7 :=
  toplevel_exit_codes 7 (.runtimeError "boom") envMenuinstInstallFails condaStateEx "jl"
    (by decide) rfl rfl rfl rfl

/-! ## Claims about the browser resolver -/

/-- The ordered candidate locations `find_browser` probes for the given
machine: the product of the per-system executable list and install roots
(empty when the needed environment variables are absent or the system is
unsupported). -/
def enumeratedLocations (env : BrowserEnv) : List String :=
  if env.os == "Windows" then
    match env.programFiles, env.programFilesX86 with
    | some pf, some pf86 => scanCandidates windowsCmds [pf, pf86]
    | _, _ => []
  else if env.os == "Linux" then
    match env.pathVar with
    | some p => scanCandidates linuxCmds (pySplitChar ':' p)
    | none => []
  else if env.os == "Darwin" then
    scanCandidates darwinCmds darwinPathElements
  else
    []

/-- The Windows registry lookup does not produce a Chromium-like default
browser command (either the key is missing or the processed command fails
both tests). -/
def registryMiss (env : BrowserEnv) : Bool :=
  match env.registryValue with
  | none => true
  | some raw => !registryChromiumLike (processRegistryCmd raw)

theorem scan_none (env : BrowserEnv) (cmds pels : List String)
    (h : ∀ b ∈ scanCandidates cmds pels, env.pathExists b = false) :
    scanBrowsers env cmds pels = none := by
  unfold scanBrowsers
  have hf : (scanCandidates cmds pels).find? (fun b => env.pathExists b) = none := by
    rw [List.find?_eq_none]
    intro b hb
    simp [h b hb]
  rw [hf]
  rfl

/-- A Windows machine where Chrome is installed under `Program Files` but
the registry default browser is a different Chromium-derived browser. -/
def winRegistryEnv : BrowserEnv :=
  { os := "Windows", pathVar := none,
    programFiles := some "C:/Program Files",
    programFilesX86 := some "C:/Program Files (x86)",
    home := "C:/Users/u",
    registryValue := some "\"C:\\V\\Application\\vivaldi.exe\" \"%1\"",
    isFile := fun _ => false,
    pathExists := fun p => p == "C:/Program Files/Google/Chrome/Application/chrome.exe",
    flatpakListStdout := .error 1 }

/-- Counterexample to C1 as stated: on Windows the Chrome executable exists
at its enumerated location, yet `find_browser` returns the registry default
browser command, which does not contain that path (and Windows enumerates
only three browsers, not four: `windowsCmds.length = 3`). -/
theorem find_browser_registry_precedence_cx :
    "C:/Program Files/Google/Chrome/Application/chrome.exe"
      ∈ enumeratedLocations winRegistryEnv ∧
    winRegistryEnv.pathExists "C:/Program Files/Google/Chrome/Application/chrome.exe" = true ∧
    find_browser winRegistryEnv = .ok (some (appCmdFor "C:\\V\\Application\\vivaldi.exe")) ∧
    strContains (appCmdFor "C:\\V\\Application\\vivaldi.exe")
      "C:/Program Files/Google/Chrome/Application/chrome.exe" = false ∧
    windowsCmds.length = 3 := by
  exact ⟨by decide, rfl, rfl, by decide, rfl⟩

/-- C1 (amended): for the browsers `find_browser` enumerates — three on
Windows (Chrome, Brave, Edge under the two `Program Files` roots), four on
Linux (over the `PATH` elements) and four on macOS (fixed `/Applications`
bundles) — whenever some enumerated location exists on disk and, on
Windows, the registry default-browser lookup yields no Chromium-like
command, `find_browser` returns the first existing location in the fixed
priority order (browser-major), quoted inside the app-mode command, so the
returned command contains that exact path. -/
theorem find_browser_first_existing (env : BrowserEnv) (best : String)
    (hreg : env.os = "Windows" → registryMiss env = true)
    (hfound : (enumeratedLocations env).find? (fun b => env.pathExists b) = some best) :
    find_browser env = .ok (some (appCmdFor best)) := by
  by_cases hw : env.os = "Windows"
  · cases hpf : env.programFiles with
    | none => simp [enumeratedLocations, hw, hpf] at hfound
    | some pf =>
      cases hpf86 : env.programFilesX86 with
      | none => simp [enumeratedLocations, hw, hpf, hpf86] at hfound
      | some pf86 =>
        simp only [enumeratedLocations, hw] at hfound
        simp only [hpf, hpf86] at hfound
        have hfound2 : (scanCandidates windowsCmds [pf, pf86]).find?
            (fun b => env.pathExists b) = some best := by
          simpa using hfound
        cases hrv : env.registryValue with
        | none =>
          simp [find_browser, hw, hpf, hpf86, hrv, scanBrowsers, hfound2]
        | some raw =>
          have hcl : registryChromiumLike (processRegistryCmd raw) = false := by
            have hrm := hreg hw
            simp [registryMiss, hrv] at hrm
            exact hrm
          simp [find_browser, hw, hpf, hpf86, hrv, hcl, scanBrowsers, hfound2]
  · by_cases hl : env.os = "Linux"
    · cases hp : env.pathVar with
      | none => simp [enumeratedLocations, hw, hl, hp] at hfound
      | some p =>
        have hfound2 : (scanCandidates linuxCmds (pySplitChar ':' p)).find?
            (fun b => env.pathExists b) = some best := by
          simpa [enumeratedLocations, hw, hl, hp] using hfound
        simp [find_browser, hw, hl, hp, scanBrowsers, hfound2]
    · by_cases hd : env.os = "Darwin"
      · have hfound2 : (scanCandidates darwinCmds darwinPathElements).find?
            (fun b => env.pathExists b) = some best := by
          simpa [enumeratedLocations, hw, hl, hd] using hfound
        simp [find_browser, hw, hl, hd, scanBrowsers, hfound2]
      · simp [enumeratedLocations, hw, hl, hd] at hfound

/-- A Linux machine with Chrome on the first `PATH` element and no
flatpak. -/
def linuxChromeEnv : BrowserEnv :=
  { os := "Linux", pathVar := some "/usr/bin:/opt/bin", programFiles := none,
    programFilesX86 := none, home := "/home/u", registryValue := none,
    isFile := fun _ => false,
    pathExists := fun p => p == "/usr/bin/google-chrome",
    flatpakListStdout := .error 1 }

/-- Witness for C1 (amended) on a concrete Linux machine. -/
theorem find_browser_first_existing_witness :
    (enumeratedLocations linuxChromeEnv).find? (fun b => linuxChromeEnv.pathExists b)
      = some "/usr/bin/google-chrome" ∧
    find_browser linuxChromeEnv = .ok (some (appCmdFor "/usr/bin/google-chrome")) :=
  ⟨rfl, find_browser_first_existing linuxChromeEnv "/usr/bin/google-chrome"
    (fun h => absurd h (by decide)) rfl⟩

/-- A Linux machine with flatpak installed whose `flatpak list` stdout
consists of the single line `com.google.Chrome`. -/
def flatpakChromeFirstLineEnv : BrowserEnv :=
  { os := "Linux", pathVar := some "/usr/bin", programFiles := none,
    programFilesX86 := none, home := "/home/u", registryValue := none,
    isFile := fun p => p == "/usr/bin/flatpak",
    pathExists := fun _ => false,
    flatpakListStdout := .ok "com.google.Chrome\n" }

/-- Counterexample to C4 as stated: the sandbox launcher is on `PATH` and
the list subcommand succeeds reporting `com.google.Chrome`, yet
`find_flatpak_browser` returns no command, because the code discards the
first stdout line (`readlines()[1:]`). -/
theorem find_flatpak_browser_first_line_cx :
    "com.google.Chrome" ∈ allFlatpakIds "com.google.Chrome\n" ∧
    find_flatpak_browser flatpakChromeFirstLineEnv = .ok none :=
  ⟨by decide, rfl⟩

/-- C4 (amended): on Linux, when the `flatpak` binary is found on `PATH`
and the list subcommand succeeds, `find_flatpak_browser` returns a
sandboxed launch command for some browser if and only if one of the four
known application ids appears among the stripped stdout lines after the
first line (which the code discards as a header); the id chosen is the
first of the four so installed, and when the flatpak lookup yields a
command, `browser_cmd` returns it without consulting the direct-path
search. -/
theorem find_flatpak_browser_spec (env : BrowserEnv) (pstr out : String)
    (hos : env.os = "Linux")
    (hpath : env.pathVar = some pstr)
    (hbin : ((pySplitChar ':' pstr).find?
      (fun p => env.isFile (joinPath p "flatpak"))).isSome = true)
    (hout : env.flatpakListStdout = .ok out) :
    (flatpakApps.find? (fun app => (parsedFlatpakIds out).contains app) = none →
      find_flatpak_browser env = .ok none) ∧
    (∀ app, flatpakApps.find? (fun app => (parsedFlatpakIds out).contains app) = some app →
      find_flatpak_browser env = .ok (some (flatpakRunCmd env.home app))) ∧
    (∀ c, find_flatpak_browser env = .ok (some c) → browser_cmd env = .ok (some c)) := by
  obtain ⟨fp, hfp⟩ := Option.isSome_iff_exists.mp hbin
  refine ⟨?_, ?_, ?_⟩
  · intro hnone
    replace hnone : flatpakApps.find? (fun app => decide (app ∈ parsedFlatpakIds out)) = none := by
      simpa using hnone
    simp [find_flatpak_browser, hos, hpath, hfp, hout, hnone]
  · intro app happ
    replace happ : flatpakApps.find? (fun a => decide (a ∈ parsedFlatpakIds out)) = some app := by
      simpa using happ
    simp [find_flatpak_browser, hos, hpath, hfp, hout, happ]
  · intro c hc
    simp [browser_cmd, hc]

/-- A Linux machine with flatpak whose list output has a header line and
`com.microsoft.Edge` installed. -/
def flatpakEdgeEnv : BrowserEnv :=
  { os := "Linux", pathVar := some "/usr/bin", programFiles := none,
    programFilesX86 := none, home := "/home/u", registryValue := none,
    isFile := fun p => p == "/usr/bin/flatpak",
    pathExists := fun _ => false,
    flatpakListStdout := .ok "Application ID\ncom.microsoft.Edge\n" }

/-- Witness for C4 (amended) on a concrete machine with a flatpak Edge. -/
theorem find_flatpak_browser_spec_witness :
    find_flatpak_browser flatpakEdgeEnv
      = .ok (some (flatpakRunCmd "/home/u" "com.microsoft.Edge")) ∧
    browser_cmd flatpakEdgeEnv
      = .ok (some (flatpakRunCmd "/home/u" "com.microsoft.Edge")) := by
  have h := find_flatpak_browser_spec flatpakEdgeEnv "/usr/bin"
    "Application ID\ncom.microsoft.Edge\n" rfl rfl (by decide) rfl
  have h1 := h.2.1 "com.microsoft.Edge" (by decide)
  exact ⟨h1, h.2.2 _ h1⟩

/-- A machine running an operating system the script does not support, with
no browser files at all. -/
def unsupportedOsEnv : BrowserEnv :=
  { os := "FreeBSD", pathVar := some "/usr/bin", programFiles := none,
    programFilesX86 := none, home := "/home/u", registryValue := none,
    isFile := fun _ => false, pathExists := fun _ => false,
    flatpakListStdout := .error 1 }

/-- Counterexample to C5 as stated: on an unsupported operating system no
browser can match (no path exists at all), yet the resolver raises — the
final loop of `find_browser` reads the never-assigned local `cmds`
(`UnboundLocalError`) instead of returning no result. -/
theorem browser_cmd_unsupported_os_cx :
    unsupportedOsEnv.pathExists = (fun _ => false) ∧
    unsupportedOsEnv.isFile = (fun _ => false) ∧
    browser_cmd unsupportedOsEnv = .error .unboundLocalError :=
  ⟨rfl, rfl, rfl⟩

/-- C5 (amended): on the three supported systems, when the environment
variables the code reads are present (`ProgramFiles` and
`ProgramFiles(x86)` on Windows, `PATH` on Linux), the Windows registry
lookup yields no Chromium-like command, the flatpak lookup finds nothing,
and no enumerated browser location exists on disk, the resolver
`browser_cmd` returns no result and raises no exception. -/
theorem browser_cmd_none_when_no_match (env : BrowserEnv)
    (hos : env.os = "Windows" ∨ env.os = "Linux" ∨ env.os = "Darwin")
    (hwin : env.os = "Windows" →
      (∃ pf, env.programFiles = some pf) ∧ (∃ q, env.programFilesX86 = some q) ∧
        registryMiss env = true)
    (hlin : env.os = "Linux" → ∃ p, env.pathVar = some p)
    (hflat : find_flatpak_browser env = .ok none)
    (hscan : ∀ b ∈ enumeratedLocations env, env.pathExists b = false) :
    browser_cmd env = .ok none := by
  have hfb : find_browser env = .ok none := by
    rcases hos with h | h | h
    · obtain ⟨⟨pf, hpf⟩, ⟨q, hq⟩, hrm⟩ := hwin h
      have hE : enumeratedLocations env = scanCandidates windowsCmds [pf, q] := by
        simp [enumeratedLocations, h, hpf, hq]
      have hsc := scan_none env windowsCmds [pf, q] (by rw [← hE]; exact hscan)
      cases hrv : env.registryValue with
      | none => simp [find_browser, h, hpf, hq, hrv, hsc]
      | some raw =>
        have hcl : registryChromiumLike (processRegistryCmd raw) = false := by
          simp [registryMiss, hrv] at hrm
          exact hrm
        simp [find_browser, h, hpf, hq, hrv, hcl, hsc]
    · obtain ⟨p, hp⟩ := hlin h
      have hE : enumeratedLocations env = scanCandidates linuxCmds (pySplitChar ':' p) := by
        simp [enumeratedLocations, h, hp]
      have hsc := scan_none env linuxCmds (pySplitChar ':' p) (by rw [← hE]; exact hscan)
      simp [find_browser, h, hp, hsc]
    · have hE : enumeratedLocations env = scanCandidates darwinCmds darwinPathElements := by
        simp [enumeratedLocations, h]
      have hsc := scan_none env darwinCmds darwinPathElements (by rw [← hE]; exact hscan)
      simp [find_browser, h, hsc]
  simp [browser_cmd, hflat, hfb]

/-- A Linux machine with neither flatpak nor any browser file. -/
def linuxNoBrowserEnv : BrowserEnv :=
  { os := "Linux", pathVar := some "/usr/bin", programFiles := none,
    programFilesX86 := none, home := "/home/u", registryValue := none,
    isFile := fun _ => false, pathExists := fun _ => false,
    flatpakListStdout := .error 1 }

/-- Witness for C5 (amended) on a concrete browserless Linux machine. -/
theorem browser_cmd_none_when_no_match_witness :
    browser_cmd linuxNoBrowserEnv = .ok none :=
  browser_cmd_none_when_no_match linuxNoBrowserEnv (Or.inr (Or.inl rfl))
    (fun h => absurd h (by decide)) (fun _ => ⟨"/usr/bin", rfl⟩) rfl (by decide)

